import Mathlib

/-!
Shallow embedding of drivers/hwmon/iei-wt61p803-puzzle-hwmon.c
(IEI WT61P803 PUZZLE MCU HWMON driver).

Bytes are modelled as `Nat` (values < 256 where the C code stores into
`unsigned char`, with explicit `% 256` at every narrowing store).
`long` values are modelled as `Int`.  The bus transport
`iei_wt61p803_puzzle_write_command` is modelled as a function from the
request byte list to either an error code or the response byte list
(whose length is the C `reply_size`).  Each driver operation returns the
`ret` value, the value written through the caller's output pointer
(`none` when the pointer is left untouched), and the list of requests it
handed to the bus transport.
-/

namespace IeiPuzzle

/-- Modelled from the spec: the MCU protocol byte constants are inherited
from the MCU's published command set (the `iei-wt61p803-puzzle.h` header
is not part of this tree).  `HEADER_START` is ASCII `'@'`. -/
def CMD_HEADER_START : Nat := 0x40

/-- Modelled from the spec: temperature command group byte (`'T'`). -/
def CMD_TEMP : Nat := 0x54

/-- Modelled from the spec: read-all-temperatures sub-command (`'A'`). -/
def CMD_TEMP_ALL : Nat := 0x41

/-- Modelled from the spec: fan command group byte (`'F'`). -/
def CMD_FAN : Nat := 0x46

/-- Modelled from the spec: PWM read sub-command byte. -/
def CMD_FAN_PWM_READ : Nat := 0x5A

/-- Modelled from the spec: PWM write sub-command byte. -/
def CMD_FAN_PWM_WRITE : Nat := 0x57

/-- Modelled from the spec: PWM channel selector byte for channel `x`. -/
def CMD_FAN_PWM (x : Nat) : Nat := 0x30 ||| (x + 1)

/-- Modelled from the spec: fan RPM sub-command byte for channel `x`. -/
def CMD_FAN_RPM (x : Nat) : Nat := 0x50 ||| (x + 1)

/-- Modelled from the spec: first byte of a successful write reply. -/
def CMD_RESPONSE_OK : Nat := 0x30

/-- Modelled from the spec: checksum byte of a successful write reply. -/
def CHECKSUM_RESPONSE_OK : Nat := 0x70

/-- `IEI_WT61P803_PUZZLE_HWMON_MAX_PWM_VAL` (line 22). -/
def IEI_WT61P803_PUZZLE_HWMON_MAX_PWM_VAL : Nat := 255

/-- Linux `Eio` errno value; the driver returns `-Eio`. -/
def Eio : Int := 5

/-- Linux `EINVAL` errno value; the driver returns `-EINVAL`. -/
def EINVAL : Int := 22

/-- The bus transport `iei_wt61p803_puzzle_write_command`: request bytes
in, either a nonzero error `ret` or the response bytes (the response is
written into the caller's `response_buffer`; its length is `reply_size`). -/
def Bus : Type := List Nat → Except Int (List Nat)

/-- Result of one driver operation: the returned `ret`, the value stored
through the caller's `long *value` output pointer (`none` when the
pointer is not written), and the request buffers passed to the bus. -/
structure OpResult where
  ret : Int
  value : Option Int
  sent : List (List Nat)
deriving DecidableEq, Repr

/-- `raw_temp_to_milidegree_celsius` macro (line 56): the byte is
promoted to `int`, so the subtraction is signed. -/
def raw_temp_to_milidegree_celsius (x : Nat) : Int :=
  ((x : Int) - 0x80) * 1000

/-- `raw_fan_val_to_rpm` macro (line 93): both bytes are promoted to
`int`; all intermediate values fit in 31 bits, and C integer division on
non-negative operands is `Nat` division. -/
def raw_fan_val_to_rpm (x y : Nat) : Nat :=
  ((x <<< 8 ||| y) / 2) * 60

/-- `temp_sensor_ntc_cmd` (lines 61-65): a 4-byte array with three
initializers; the fourth byte is zero-initialized. -/
def temp_sensor_ntc_cmd : List Nat :=
  [CMD_HEADER_START, CMD_TEMP, CMD_TEMP_ALL, 0]

/-- `fan_speed_cmd` (lines 98-104): 4 bytes; the sub-command byte is
narrowed to `unsigned char` on store. -/
def fan_speed_cmd (channel : Nat) : List Nat :=
  [CMD_HEADER_START, CMD_FAN, CMD_FAN_RPM channel % 256, 0]

/-- `pwm_set_cmd` (lines 128-136): 6 bytes; the channel selector and the
duty value are narrowed to `unsigned char` on store (the duty is a C
`long`, so the narrowing is value mod 256). -/
def pwm_set_cmd (channel : Nat) (pwm_set_val : Int) : List Nat :=
  [CMD_HEADER_START, CMD_FAN, CMD_FAN_PWM_WRITE,
   CMD_FAN_PWM channel % 256, (pwm_set_val % 256).toNat, 0]

/-- `pwm_get_cmd` (lines 165-172): 5 bytes, the last zero-initialized. -/
def pwm_get_cmd (channel : Nat) : List Nat :=
  [CMD_HEADER_START, CMD_FAN, CMD_FAN_PWM_READ, CMD_FAN_PWM channel % 256, 0]

/-- `iei_wt61p803_puzzle_read_temp_sensor` (lines 57-91): send the
read-all-temperatures command; require a 7-byte reply whose byte 3 is
ASCII `'2'` (= 50); on success store
`raw_temp_to_milidegree_celsius(resp_buf[4 + channel])`. -/
def iei_wt61p803_puzzle_read_temp_sensor (bus : Bus) (channel : Nat) : OpResult :=
  match bus temp_sensor_ntc_cmd with
  | .error e => ⟨e, none, [temp_sensor_ntc_cmd]⟩
  | .ok resp =>
    if resp.length ≠ 7 then ⟨-Eio, none, [temp_sensor_ntc_cmd]⟩
    else if resp.getD 3 0 ≠ 50 then ⟨-Eio, none, [temp_sensor_ntc_cmd]⟩
    else ⟨0, some (raw_temp_to_milidegree_celsius (resp.getD (4 + channel) 0)),
          [temp_sensor_ntc_cmd]⟩

/-- `iei_wt61p803_puzzle_read_fan_speed` (lines 94-122): send the
fan-RPM command for the channel; require a 7-byte reply; on success
store `raw_fan_val_to_rpm(resp_buf[3], resp_buf[4])`. -/
def iei_wt61p803_puzzle_read_fan_speed (bus : Bus) (channel : Nat) : OpResult :=
  match bus (fan_speed_cmd channel) with
  | .error e => ⟨e, none, [fan_speed_cmd channel]⟩
  | .ok resp =>
    if resp.length ≠ 7 then ⟨-Eio, none, [fan_speed_cmd channel]⟩
    else ⟨0, some ((raw_fan_val_to_rpm (resp.getD 3 0) (resp.getD 4 0) : Nat) : Int),
          [fan_speed_cmd channel]⟩

/-- `iei_wt61p803_puzzle_write_pwm_channel` (lines 124-159): send the
PWM-write command; require a 3-byte reply equal to
`[HEADER_START, RESPONSE_OK, CHECKSUM_RESPONSE_OK]`.  The `&&` chain of
the reply check short-circuits but is pure, so it is modelled as a
conjunction.  No output pointer exists on this path. -/
def iei_wt61p803_puzzle_write_pwm_channel (bus : Bus) (channel : Nat)
    (pwm_set_val : Int) : OpResult :=
  match bus (pwm_set_cmd channel pwm_set_val) with
  | .error e => ⟨e, none, [pwm_set_cmd channel pwm_set_val]⟩
  | .ok resp =>
    if resp.length ≠ 3 then ⟨-Eio, none, [pwm_set_cmd channel pwm_set_val]⟩
    else if ¬(resp.getD 0 0 = CMD_HEADER_START ∧
              resp.getD 1 0 = CMD_RESPONSE_OK ∧
              resp.getD 2 0 = CHECKSUM_RESPONSE_OK) then
      ⟨-Eio, none, [pwm_set_cmd channel pwm_set_val]⟩
    else ⟨0, none, [pwm_set_cmd channel pwm_set_val]⟩

/-- `iei_wt61p803_puzzle_read_pwm_channel` (lines 161-189): send the
PWM-read command; require a 5-byte reply whose byte 2 is the PWM-read
sub-command byte; on success store `resp_buf[3]`. -/
def iei_wt61p803_puzzle_read_pwm_channel (bus : Bus) (channel : Nat) : OpResult :=
  match bus (pwm_get_cmd channel) with
  | .error e => ⟨e, none, [pwm_get_cmd channel]⟩
  | .ok resp =>
    if resp.length ≠ 5 then ⟨-Eio, none, [pwm_get_cmd channel]⟩
    else if resp.getD 2 0 ≠ CMD_FAN_PWM_READ then ⟨-Eio, none, [pwm_get_cmd channel]⟩
    else ⟨0, some ((resp.getD 3 0 : Nat) : Int), [pwm_get_cmd channel]⟩

/-- Synchronization-relevant events of one driver operation, in program
order: taking and releasing `mcu_hwmon->lock`, and each access to
`mcu_hwmon->response_buffer`.  The bus exchange itself counts as a
buffer access, since `iei_wt61p803_puzzle_write_command` writes the
response into `resp_buf`. -/
inductive Ev where
  | lock
  | unlock
  | buf
deriving DecidableEq, Repr

/-- Run a trace with the given lock state, checking that every buffer
access happens while the lock is held. -/
def lockedRun : Bool → List Ev → Bool
  | _, [] => true
  | _, Ev.lock :: rest => lockedRun true rest
  | _, Ev.unlock :: rest => lockedRun false rest
  | held, Ev.buf :: rest => held && lockedRun held rest

/-- Every `response_buffer` access in the trace occurs while the
transaction lock is held (starting unlocked). -/
def allBufLocked (t : List Ev) : Bool := lockedRun false t

/-- Event trace of `iei_wt61p803_puzzle_read_temp_sensor` (lines 57-91)
as a function of the bus outcome: `mutex_lock`; the bus exchange writes
`resp_buf`; on a 7-byte reply `resp_buf[3]` is read; on the valid tag
`resp_buf[4 + channel]` is read; `mutex_unlock` at `exit`. -/
def tempSensorTrace (r : Except Int (List Nat)) : List Ev :=
  [.lock, .buf] ++
    (match r with
     | .error _ => []
     | .ok resp =>
       if resp.length ≠ 7 then []
       else if resp.getD 3 0 ≠ 50 then [.buf]
       else [.buf, .buf]) ++
  [.unlock]

/-- Event trace of `iei_wt61p803_puzzle_read_fan_speed` (lines 94-122):
`mutex_lock`; bus exchange writes `resp_buf`; on a 7-byte reply
`resp_buf[3]` and `resp_buf[4]` are read; `mutex_unlock` at `exit`. -/
def fanSpeedTrace (r : Except Int (List Nat)) : List Ev :=
  [.lock, .buf] ++
    (match r with
     | .error _ => []
     | .ok resp => if resp.length ≠ 7 then [] else [.buf, .buf]) ++
  [.unlock]

/-- Event trace of `iei_wt61p803_puzzle_write_pwm_channel` (lines
124-159): `mutex_lock`; bus exchange writes `resp_buf`; on a 3-byte
reply the `&&` chain reads `resp_buf[0]`, then `resp_buf[1]` and
`resp_buf[2]` as long as the previous bytes matched; `mutex_unlock`. -/
def pwmWriteTrace (r : Except Int (List Nat)) : List Ev :=
  [.lock, .buf] ++
    (match r with
     | .error _ => []
     | .ok resp =>
       if resp.length ≠ 3 then []
       else
         [.buf] ++
           (if resp.getD 0 0 = CMD_HEADER_START then
              [.buf] ++ (if resp.getD 1 0 = CMD_RESPONSE_OK then [.buf] else [])
            else [])) ++
  [.unlock]

/-- Event trace of `iei_wt61p803_puzzle_read_pwm_channel` (lines
161-189): this function never touches `mcu_hwmon->lock`; the bus
exchange writes `resp_buf`, then on a 5-byte reply `resp_buf[2]` is
read, and on a matching tag `resp_buf[3]` is read. -/
def pwmReadTrace (r : Except Int (List Nat)) : List Ev :=
  [.buf] ++
    (match r with
     | .error _ => []
     | .ok resp =>
       if resp.length ≠ 5 then []
       else if resp.getD 2 0 ≠ CMD_FAN_PWM_READ then [.buf]
       else [.buf, .buf])

/-- The `enum hwmon_sensor_types` values the driver distinguishes; every
other enumerator falls into the `default` arm of its switches and is
collapsed into `other`. -/
inductive SensorType where
  | temp
  | fan
  | pwm
  | other
deriving DecidableEq, Repr

/-- Modelled from the spec: `hwmon_pwm_input` enumerator (hwmon.h is not
part of this tree; only its distinctness from the other attributes of
the same sensor kind matters here). -/
def hwmon_pwm_input : Nat := 0

/-- Modelled from the spec: `hwmon_pwm_enable`, an attribute of kind pwm
other than `input`. -/
def hwmon_pwm_enable : Nat := 1

/-- Modelled from the spec: `hwmon_fan_input` enumerator. -/
def hwmon_fan_input : Nat := 1

/-- Modelled from the spec: `hwmon_temp_input` enumerator. -/
def hwmon_temp_input : Nat := 1

/-- `iei_wt61p803_puzzle_read` (lines 191-206): dispatch on the sensor
type only; unknown types return `-EINVAL` without touching the bus. -/
def iei_wt61p803_puzzle_read (bus : Bus) (type : SensorType) (attr : Nat)
    (channel : Nat) : OpResult :=
  match type with
  | .pwm => iei_wt61p803_puzzle_read_pwm_channel bus channel
  | .fan => iei_wt61p803_puzzle_read_fan_speed bus channel
  | .temp => iei_wt61p803_puzzle_read_temp_sensor bus channel
  | .other => ⟨-EINVAL, none, []⟩

/-- `iei_wt61p803_puzzle_write` (lines 208-214): every write goes to the
PWM write path, with no dispatch on type or attr. -/
def iei_wt61p803_puzzle_write (bus : Bus) (type : SensorType) (attr : Nat)
    (channel : Nat) (val : Int) : OpResult :=
  iei_wt61p803_puzzle_write_pwm_channel bus channel val

/-- `iei_wt61p803_puzzle_is_visible` (lines 216-241).  `present` models
the `thermal_cooling_dev_present` array (the framework only passes
channels within the declared layout, so the array lookup is modelled as
a total function).  Modes are octal as in the source. -/
def iei_wt61p803_puzzle_is_visible (present : Nat → Bool) (type : SensorType)
    (attr : Nat) (channel : Nat) : Nat :=
  match type with
  | .pwm =>
    if present channel then 0o444
    else if attr = hwmon_pwm_input then 0o644
    else 0
  | .fan => if attr = hwmon_fan_input then 0o444 else 0
  | .temp => if attr = hwmon_temp_input then 0o444 else 0
  | .other => 0

/-- The cooling-device record
`iei_wt61p803_puzzle_thermal_cooling_device` (lines 32-38), reduced to
the field the callbacks read. -/
structure ThermalCoolingDevice where
  pwm_channel : Nat
deriving DecidableEq, Repr

/-- `iei_wt61p803_puzzle_get_max_state` (lines 270-276): always succeeds
and stores the constant 255. -/
def iei_wt61p803_puzzle_get_max_state : Int × Nat :=
  (0, IEI_WT61P803_PUZZLE_HWMON_MAX_PWM_VAL)

/-- `iei_wt61p803_puzzle_get_cur_state` (lines 278-291): PWM read on the
record's channel; a nonzero `ret` is propagated and `*state` untouched. -/
def iei_wt61p803_puzzle_get_cur_state (bus : Bus)
    (cdev : ThermalCoolingDevice) : OpResult :=
  iei_wt61p803_puzzle_read_pwm_channel bus cdev.pwm_channel

/-- `iei_wt61p803_puzzle_set_cur_state` (lines 293-300): PWM write of
the (unsigned) state on the record's channel. -/
def iei_wt61p803_puzzle_set_cur_state (bus : Bus)
    (cdev : ThermalCoolingDevice) (state : Nat) : OpResult :=
  iei_wt61p803_puzzle_write_pwm_channel bus cdev.pwm_channel (state : Int)

/-- Modelled from the spec: the MCU's observable state for the PWM
verbs is the per-channel stored duty cycle. -/
structure Mcu where
  duty : Nat → Nat

/-- Inverse of the `CMD_FAN_PWM` channel selector for the supported
channels: `CMD_FAN_PWM 0 = 0x31` and `CMD_FAN_PWM 1 = 0x32`. -/
def pwmChannelOfSelector (b : Nat) : Nat := b - 0x31

/-- Modelled from the spec: an MCU that acknowledges a PWM-write request
with the well-formed OK reply and stores the request's duty byte, and
answers a PWM-read request with a well-formed 5-byte reply echoing the
stored duty of the addressed channel (the round-trip assumption of the
spec); anything else errors. -/
def mcuExec (m : Mcu) (req : List Nat) : Mcu × Except Int (List Nat) :=
  if req.getD 2 0 = CMD_FAN_PWM_WRITE then
    (⟨fun ch => if ch = pwmChannelOfSelector (req.getD 3 0) then req.getD 4 0
                else m.duty ch⟩,
     .ok [CMD_HEADER_START, CMD_RESPONSE_OK, CHECKSUM_RESPONSE_OK])
  else if req.getD 2 0 = CMD_FAN_PWM_READ then
    (m, .ok [CMD_HEADER_START, CMD_FAN, CMD_FAN_PWM_READ,
             m.duty (pwmChannelOfSelector (req.getD 3 0)), 0])
  else (m, .error (-Eio))

/-! Helper lemmas: each operation hands exactly its one command buffer to
the bus transport, on every control path. -/

theorem sent_read_temp (bus : Bus) (channel : Nat) :
    (iei_wt61p803_puzzle_read_temp_sensor bus channel).sent = [temp_sensor_ntc_cmd] := by
  cases hb : bus temp_sensor_ntc_cmd with
  | error e => simp [iei_wt61p803_puzzle_read_temp_sensor, hb]
  | ok resp =>
    simp only [iei_wt61p803_puzzle_read_temp_sensor, hb]
    split_ifs <;> rfl

theorem sent_read_fan (bus : Bus) (channel : Nat) :
    (iei_wt61p803_puzzle_read_fan_speed bus channel).sent = [fan_speed_cmd channel] := by
  cases hb : bus (fan_speed_cmd channel) with
  | error e => simp [iei_wt61p803_puzzle_read_fan_speed, hb]
  | ok resp =>
    simp only [iei_wt61p803_puzzle_read_fan_speed, hb]
    split_ifs <;> rfl

theorem sent_write_pwm (bus : Bus) (channel : Nat) (v : Int) :
    (iei_wt61p803_puzzle_write_pwm_channel bus channel v).sent = [pwm_set_cmd channel v] := by
  cases hb : bus (pwm_set_cmd channel v) with
  | error e => simp [iei_wt61p803_puzzle_write_pwm_channel, hb]
  | ok resp =>
    simp only [iei_wt61p803_puzzle_write_pwm_channel, hb]
    split_ifs <;> rfl

theorem sent_read_pwm (bus : Bus) (channel : Nat) :
    (iei_wt61p803_puzzle_read_pwm_channel bus channel).sent = [pwm_get_cmd channel] := by
  cases hb : bus (pwm_get_cmd channel) with
  | error e => simp [iei_wt61p803_puzzle_read_pwm_channel, hb]
  | ok resp =>
    simp only [iei_wt61p803_puzzle_read_pwm_channel, hb]
    split_ifs <;> rfl

/-- Claim C1: the claim says every MCU exchange accesses the shared
`response_buffer` only under the transaction lock, the PWM read path
included.  The code violates this (the code's own comment on the mutex
says it protects `response_buffer`): the temperature, fan-RPM and
PWM-write paths keep every buffer access inside the lock for every bus
outcome, but the PWM read path performs its whole exchange — which
writes and reads the buffer — without ever taking the lock, shown here
at a concrete well-formed 5-byte reply. -/
theorem response_buffer_lock_discipline :
    (∀ r, allBufLocked (tempSensorTrace r) = true) ∧
    (∀ r, allBufLocked (fanSpeedTrace r) = true) ∧
    (∀ r, allBufLocked (pwmWriteTrace r) = true) ∧
    allBufLocked (pwmReadTrace
      (.ok [CMD_HEADER_START, CMD_FAN, CMD_FAN_PWM_READ, 128, 0])) = false := by
  refine ⟨?_, ?_, ?_, by decide⟩ <;>
    · intro r
      cases r with
      | error e => rfl
      | ok resp =>
        simp only [tempSensorTrace, fanSpeedTrace, pwmWriteTrace, allBufLocked]
        split_ifs <;> rfl

/-- Claim C2: for channels 0 and 1, a successful temperature read over a
7-byte reply tagged `'2'` returns `(resp[4+c] - 128) * 1000` milli-°C,
and the raw-byte conversion stays within `[-128000, 127000]`. -/
theorem temp_read_conversion :
    (∀ (resp : List Nat) (c : Nat), c < 2 → resp.length = 7 → resp.getD 3 0 = 50 →
      iei_wt61p803_puzzle_read_temp_sensor (fun _ => .ok resp) c =
        ⟨0, some (((resp.getD (4 + c) 0 : Int) - 128) * 1000), [temp_sensor_ntc_cmd]⟩) ∧
    (∀ b : Nat, b ≤ 255 →
      -128000 ≤ raw_temp_to_milidegree_celsius b ∧
        raw_temp_to_milidegree_celsius b ≤ 127000) := by
  constructor
  · intro resp c _ hlen htag
    simp only [iei_wt61p803_puzzle_read_temp_sensor]
    rw [if_neg (not_ne_iff.mpr hlen), if_neg (not_ne_iff.mpr htag)]
    rfl
  · intro b hb
    unfold raw_temp_to_milidegree_celsius
    omega

/-- Witness for C2 at scenario S1: reply `[H, 'T', '@', '2', 0xA0, 0x70, C]`
gives 32000 milli-°C on channel 0; byte 0xA0 converts inside the range. -/
theorem temp_read_conversion_witness :
    iei_wt61p803_puzzle_read_temp_sensor
        (fun _ => .ok [64, 84, 64, 50, 160, 112, 67]) 0 =
      ⟨0, some 32000, [temp_sensor_ntc_cmd]⟩ ∧
    -128000 ≤ raw_temp_to_milidegree_celsius 160 ∧
      raw_temp_to_milidegree_celsius 160 ≤ 127000 := by
  have h := temp_read_conversion
  refine ⟨?_, h.2 160 (by decide)⟩
  have h0 := h.1 [64, 84, 64, 50, 160, 112, 67] 0 (by decide) (by decide) (by decide)
  simpa using h0

/-- Claim C3: a successful fan read over a 7-byte reply returns
`((resp[3] <<< 8 ||| resp[4]) / 2) * 60` RPM, and the conversion is
non-negative on the whole 16-bit domain. -/
theorem fan_read_conversion :
    (∀ (resp : List Nat) (channel : Nat), resp.length = 7 →
      iei_wt61p803_puzzle_read_fan_speed (fun _ => .ok resp) channel =
        ⟨0, some ((((resp.getD 3 0 <<< 8 ||| resp.getD 4 0) / 2) * 60 : Nat) : Int),
         [fan_speed_cmd channel]⟩) ∧
    (∀ hi lo : Nat, 0 ≤ ((raw_fan_val_to_rpm hi lo : Nat) : Int)) := by
  constructor
  · intro resp channel hlen
    simp only [iei_wt61p803_puzzle_read_fan_speed]
    rw [if_neg (not_ne_iff.mpr hlen)]
    rfl
  · intro hi lo
    exact Int.ofNat_nonneg _

/-- Witness for C3 at scenario S2: reply bytes 3 and 4 are `0x01, 0x90`,
so the fan read reports `(0x0190 / 2) * 60 = 12000` RPM. -/
theorem fan_read_conversion_witness :
    iei_wt61p803_puzzle_read_fan_speed
        (fun _ => .ok [64, 70, 84, 1, 144, 0, 0]) 3 =
      ⟨0, some 12000, [fan_speed_cmd 3]⟩ := by
  have h := (fan_read_conversion.1 [64, 70, 84, 1, 144, 0, 0] 3 (by decide))
  simpa using h

/-- Claim C4: for each of the four verbs, a reply whose length or
checked tag bytes deviate from the verb's contract makes the operation
return `-Eio` without writing through the caller's output pointer. -/
theorem framing_deviation_is_eio_without_mutation :
    ∀ (resp : List Nat) (channel : Nat) (v : Int),
      (resp.length ≠ 7 ∨ resp.getD 3 0 ≠ 50 →
        iei_wt61p803_puzzle_read_temp_sensor (fun _ => .ok resp) channel =
          ⟨-Eio, none, [temp_sensor_ntc_cmd]⟩) ∧
      (resp.length ≠ 7 →
        iei_wt61p803_puzzle_read_fan_speed (fun _ => .ok resp) channel =
          ⟨-Eio, none, [fan_speed_cmd channel]⟩) ∧
      (resp.length ≠ 3 ∨ ¬(resp.getD 0 0 = CMD_HEADER_START ∧
          resp.getD 1 0 = CMD_RESPONSE_OK ∧ resp.getD 2 0 = CHECKSUM_RESPONSE_OK) →
        iei_wt61p803_puzzle_write_pwm_channel (fun _ => .ok resp) channel v =
          ⟨-Eio, none, [pwm_set_cmd channel v]⟩) ∧
      (resp.length ≠ 5 ∨ resp.getD 2 0 ≠ CMD_FAN_PWM_READ →
        iei_wt61p803_puzzle_read_pwm_channel (fun _ => .ok resp) channel =
          ⟨-Eio, none, [pwm_get_cmd channel]⟩) := by
  intro resp channel v
  refine ⟨?_, ?_, ?_, ?_⟩
  · intro h
    simp only [iei_wt61p803_puzzle_read_temp_sensor]
    split_ifs with h1 h2 <;> first | rfl | tauto
  · intro h
    simp only [iei_wt61p803_puzzle_read_fan_speed]
    split_ifs with h1 <;> first | rfl | tauto
  · intro h
    simp only [iei_wt61p803_puzzle_write_pwm_channel]
    split_ifs with h1 h2 <;> first | rfl | tauto
  · intro h
    simp only [iei_wt61p803_puzzle_read_pwm_channel]
    split_ifs with h1 h2 <;> first | rfl | tauto

/-- Witness for C4: the empty reply deviates from every verb's length
contract, so each of the four operations returns `-Eio` with no value. -/
theorem framing_deviation_is_eio_without_mutation_witness :
    iei_wt61p803_puzzle_read_temp_sensor (fun _ => .ok []) 0 =
      ⟨-Eio, none, [temp_sensor_ntc_cmd]⟩ ∧
    iei_wt61p803_puzzle_read_fan_speed (fun _ => .ok []) 0 =
      ⟨-Eio, none, [fan_speed_cmd 0]⟩ ∧
    iei_wt61p803_puzzle_write_pwm_channel (fun _ => .ok []) 0 0 =
      ⟨-Eio, none, [pwm_set_cmd 0 0]⟩ ∧
    iei_wt61p803_puzzle_read_pwm_channel (fun _ => .ok []) 0 =
      ⟨-Eio, none, [pwm_get_cmd 0]⟩ := by
  have h := framing_deviation_is_eio_without_mutation [] 0 0
  exact ⟨h.1 (Or.inl (by decide)), h.2.1 (by decide),
    h.2.2.1 (Or.inl (by decide)), h.2.2.2 (Or.inl (by decide))⟩

/-- Claim C5 counterexample: the claim says a pwm attribute other than
`input` is invisible (mode 0) in every case, but when the channel's
presence flag is set the switch returns 0444 before ever looking at the
attribute: `is_visible(pwm, enable, 0)` with the flag set is 0444, not 0. -/
theorem is_visible_pwm_governed_non_input_not_invisible :
    iei_wt61p803_puzzle_is_visible (fun _ => true) .pwm hwmon_pwm_enable 0 = 0o444 ∧
    hwmon_pwm_enable ≠ hwmon_pwm_input ∧ (0o444 : Nat) ≠ 0 := by decide

/-- Claim C5 (amended): for kind pwm, a governor-owned channel makes
EVERY attribute read-only (0444); a non-owned channel makes `input`
read-write (0644) and every other attribute invisible; for kinds fan
and temp, `input` is read-only and every other attribute invisible; any
other kind is invisible. -/
theorem is_visible_table :
    ∀ (present : Nat → Bool) (attr channel : Nat),
      (present channel = true →
        iei_wt61p803_puzzle_is_visible present .pwm attr channel = 0o444) ∧
      (present channel = false → attr = hwmon_pwm_input →
        iei_wt61p803_puzzle_is_visible present .pwm attr channel = 0o644) ∧
      (present channel = false → attr ≠ hwmon_pwm_input →
        iei_wt61p803_puzzle_is_visible present .pwm attr channel = 0) ∧
      (attr = hwmon_fan_input →
        iei_wt61p803_puzzle_is_visible present .fan attr channel = 0o444) ∧
      (attr ≠ hwmon_fan_input →
        iei_wt61p803_puzzle_is_visible present .fan attr channel = 0) ∧
      (attr = hwmon_temp_input →
        iei_wt61p803_puzzle_is_visible present .temp attr channel = 0o444) ∧
      (attr ≠ hwmon_temp_input →
        iei_wt61p803_puzzle_is_visible present .temp attr channel = 0) ∧
      iei_wt61p803_puzzle_is_visible present .other attr channel = 0 := by
  intro present attr channel
  refine ⟨fun hp => by simp [iei_wt61p803_puzzle_is_visible, hp],
    fun hp ha => by simp [iei_wt61p803_puzzle_is_visible, hp, ha],
    fun hp ha => by simp [iei_wt61p803_puzzle_is_visible, hp, ha],
    fun ha => by simp [iei_wt61p803_puzzle_is_visible, ha],
    fun ha => by simp [iei_wt61p803_puzzle_is_visible, ha],
    fun ha => by simp [iei_wt61p803_puzzle_is_visible, ha],
    fun ha => by simp [iei_wt61p803_puzzle_is_visible, ha],
    rfl⟩

/-- Witness for the amended C5 at concrete inputs: with channel 0 owned
and channel 1 not owned, `pwm/enable/0` is 0444, `pwm/input/1` is 0644,
`pwm/enable/1` is 0, `fan/input` is 0444, `fan/enable(0)` is 0,
`temp/input` is 0444, and an unknown kind is 0. -/
theorem is_visible_table_witness :
    iei_wt61p803_puzzle_is_visible (fun c => c == 0) .pwm hwmon_pwm_enable 0 = 0o444 ∧
    iei_wt61p803_puzzle_is_visible (fun c => c == 0) .pwm hwmon_pwm_input 1 = 0o644 ∧
    iei_wt61p803_puzzle_is_visible (fun c => c == 0) .pwm hwmon_pwm_enable 1 = 0 ∧
    iei_wt61p803_puzzle_is_visible (fun c => c == 0) .fan hwmon_fan_input 2 = 0o444 ∧
    iei_wt61p803_puzzle_is_visible (fun c => c == 0) .fan 0 2 = 0 ∧
    iei_wt61p803_puzzle_is_visible (fun c => c == 0) .temp hwmon_temp_input 0 = 0o444 ∧
    iei_wt61p803_puzzle_is_visible (fun c => c == 0) .other 0 0 = 0 := by
  have h0 := is_visible_table (fun c => c == 0) hwmon_pwm_enable 0
  have h1 := is_visible_table (fun c => c == 0) hwmon_pwm_input 1
  have h2 := is_visible_table (fun c => c == 0) hwmon_pwm_enable 1
  have h3 := is_visible_table (fun c => c == 0) hwmon_fan_input 2
  have h4 := is_visible_table (fun c => c == 0) 0 2
  have h5 := is_visible_table (fun c => c == 0) hwmon_temp_input 0
  exact ⟨h0.1 (by decide), h1.2.1 (by decide) rfl, h2.2.2.1 (by decide) (by decide),
    h3.2.2.2.1 rfl, h4.2.2.2.2.1 (by decide), h5.2.2.2.2.2.1 rfl,
    h5.2.2.2.2.2.2.2⟩

/-- Claim C6 counterexample: fan channel 7 is outside the supported
range (the layout declares fan channels 0..4), yet the fan-speed read
builds and sends the request for it and completes from the bus reply
instead of rejecting the index. -/
theorem fan_read_out_of_range_channel_sends_request :
    iei_wt61p803_puzzle_read_fan_speed
        (fun _ => .ok [64, 70, 88, 1, 144, 0, 0]) 7 =
      ⟨0, some 12000, [[64, 70, 88, 0]]⟩ ∧
    [[64, 70, 88, 0]] ≠ ([] : List (List Nat)) := by decide

/-- Claim C6 (amended): no driver operation validates its channel index;
each one builds its command for the given channel and hands it to the
bus transport unconditionally, whatever the channel is.  The supported
range is enforced only by the hwmon channel layout at the framework
level. -/
theorem operations_send_request_for_any_channel :
    ∀ (bus : Bus) (channel : Nat) (v : Int),
      (iei_wt61p803_puzzle_read_temp_sensor bus channel).sent = [temp_sensor_ntc_cmd] ∧
      (iei_wt61p803_puzzle_read_fan_speed bus channel).sent = [fan_speed_cmd channel] ∧
      (iei_wt61p803_puzzle_read_pwm_channel bus channel).sent = [pwm_get_cmd channel] ∧
      (iei_wt61p803_puzzle_write_pwm_channel bus channel v).sent =
        [pwm_set_cmd channel v] :=
  fun bus channel v =>
    ⟨sent_read_temp bus channel, sent_read_fan bus channel,
     sent_read_pwm bus channel, sent_write_pwm bus channel v⟩

/-- Claim C7: against an MCU model that acknowledges PWM writes with the
well-formed OK reply and answers PWM reads with a well-formed reply
echoing the stored duty, writing `v ∈ [0, 255]` to a PWM channel and
then reading the same channel returns `v`. -/
theorem pwm_write_read_roundtrip :
    ∀ (m : Mcu) (channel : Nat) (v : Int), channel < 2 → 0 ≤ v → v ≤ 255 →
      (iei_wt61p803_puzzle_write_pwm_channel
        (fun req => (mcuExec m req).2) channel v).ret = 0 ∧
      iei_wt61p803_puzzle_read_pwm_channel
          (fun req => (mcuExec (mcuExec m (pwm_set_cmd channel v)).1 req).2) channel =
        ⟨0, some v, [pwm_get_cmd channel]⟩ := by
  intro m channel v hch hv0 hv1
  have hmod : v % 256 = v := Int.emod_eq_of_lt hv0 (by omega)
  interval_cases channel
  · refine ⟨rfl, ?_⟩
    show (⟨0, some (((v % 256).toNat : Nat) : Int), [pwm_get_cmd 0]⟩ : OpResult) = _
    rw [hmod, Int.toNat_of_nonneg hv0]
  · refine ⟨rfl, ?_⟩
    show (⟨0, some (((v % 256).toNat : Nat) : Int), [pwm_get_cmd 1]⟩ : OpResult) = _
    rw [hmod, Int.toNat_of_nonneg hv0]

/-- Witness for C7: starting from an MCU with all duties zero, writing
128 to PWM channel 0 and reading it back returns 128. -/
theorem pwm_write_read_roundtrip_witness :
    (iei_wt61p803_puzzle_write_pwm_channel
      (fun req => (mcuExec ⟨fun _ => 0⟩ req).2) 0 128).ret = 0 ∧
    iei_wt61p803_puzzle_read_pwm_channel
        (fun req => (mcuExec (mcuExec ⟨fun _ => 0⟩ (pwm_set_cmd 0 128)).1 req).2) 0 =
      ⟨0, some 128, [pwm_get_cmd 0]⟩ :=
  pwm_write_read_roundtrip ⟨fun _ => 0⟩ 0 128 (by decide) (by decide) (by decide)

/-- Claim C8: the cooling-device callbacks: max-state succeeds and
stores the constant 255; set-state is exactly the PWM write of the state
on the record's channel, so for a duty-range state it hands the bus the
request `[HEADER_START, FAN, FAN_PWM_WRITE, FAN_PWM(ch), s, 0]` — the
same request as a direct hwmon write of `s`; current-state is exactly
the PWM read of the record's channel, so any I/O error propagates. -/
theorem cooling_ops_behavior :
    iei_wt61p803_puzzle_get_max_state = (0, 255) ∧
    (∀ (bus : Bus) (cdev : ThermalCoolingDevice) (s : Nat),
      iei_wt61p803_puzzle_set_cur_state bus cdev s =
        iei_wt61p803_puzzle_write bus .pwm hwmon_pwm_input cdev.pwm_channel (s : Int)) ∧
    (∀ (bus : Bus) (cdev : ThermalCoolingDevice) (s : Nat), s ≤ 255 →
      (iei_wt61p803_puzzle_set_cur_state bus cdev s).sent =
        [[CMD_HEADER_START, CMD_FAN, CMD_FAN_PWM_WRITE,
          CMD_FAN_PWM cdev.pwm_channel % 256, s, 0]]) ∧
    (∀ (bus : Bus) (cdev : ThermalCoolingDevice),
      iei_wt61p803_puzzle_get_cur_state bus cdev =
        iei_wt61p803_puzzle_read_pwm_channel bus cdev.pwm_channel) := by
  refine ⟨rfl, fun bus cdev s => rfl, fun bus cdev s hs => ?_, fun bus cdev => rfl⟩
  have h := sent_write_pwm bus cdev.pwm_channel (s : Int)
  have hmod : ((s : Int) % 256).toNat = s := by omega
  simpa [iei_wt61p803_puzzle_set_cur_state, pwm_set_cmd, hmod] using h

/-- Witness for C8: with the record owning channel 0 and state 128 (the
S3/S4 scenario), set-state hands the bus `[0x40, 0x46, 0x57, 0x31, 128, 0]`. -/
theorem cooling_ops_behavior_witness :
    iei_wt61p803_puzzle_get_max_state = (0, 255) ∧
    (iei_wt61p803_puzzle_set_cur_state (fun _ => .error (-Eio)) ⟨0⟩ 128).sent =
      [[CMD_HEADER_START, CMD_FAN, CMD_FAN_PWM_WRITE, CMD_FAN_PWM 0 % 256, 128, 0]] ∧
    iei_wt61p803_puzzle_get_cur_state (fun _ => .error (-Eio)) ⟨0⟩ =
      iei_wt61p803_puzzle_read_pwm_channel (fun _ => .error (-Eio)) 0 := by
  have h := cooling_ops_behavior
  exact ⟨h.1, h.2.2.1 (fun _ => .error (-Eio)) ⟨0⟩ 128 (by decide),
    h.2.2.2 (fun _ => .error (-Eio)) ⟨0⟩⟩

/-- Claim C9 counterexample: writing the out-of-range value 300 to PWM
channel 0 is neither clamped nor rejected: the request carries the duty
byte 44, which IS 300 truncated modulo 256, and the write succeeds. -/
theorem pwm_write_out_of_range_truncates :
    iei_wt61p803_puzzle_write_pwm_channel
        (fun _ => .ok [CMD_HEADER_START, CMD_RESPONSE_OK, CHECKSUM_RESPONSE_OK]) 0 300 =
      ⟨0, none, [[64, 70, 87, 49, 44, 0]]⟩ ∧
    (44 : Int) = 300 % 256 ∧ ¬(300 : Int) ≤ 255 ∧ (44 : Nat) ≠ 255 := by decide

/-- Claim C9 (amended): a PWM write never clamps or rejects its value;
for every requested value the duty byte placed in the request is exactly
the value truncated modulo 256, and with a well-formed OK reply the
write succeeds for every value. -/
theorem pwm_write_duty_is_value_mod_256 :
    ∀ (bus : Bus) (channel : Nat) (v : Int),
      (iei_wt61p803_puzzle_write_pwm_channel bus channel v).sent =
        [[CMD_HEADER_START, CMD_FAN, CMD_FAN_PWM_WRITE,
          CMD_FAN_PWM channel % 256, (v % 256).toNat, 0]] ∧
      (iei_wt61p803_puzzle_write_pwm_channel
        (fun _ => .ok [CMD_HEADER_START, CMD_RESPONSE_OK, CHECKSUM_RESPONSE_OK])
        channel v).ret = 0 := by
  intro bus channel v
  exact ⟨sent_write_pwm bus channel v, rfl⟩

/-- Claim C10: the hwmon write callback forwards every write to the PWM
write path with the given channel and value, with no dispatch on the
sensor kind or attribute; in particular a write invoked with kind temp
or fan still hands the bus a PWM-write request. -/
theorem write_callback_has_no_dispatch :
    ∀ (bus : Bus) (type : SensorType) (attr channel : Nat) (v : Int),
      iei_wt61p803_puzzle_write bus type attr channel v =
        iei_wt61p803_puzzle_write_pwm_channel bus channel v ∧
      (iei_wt61p803_puzzle_write bus .temp attr channel v).sent =
        [pwm_set_cmd channel v] ∧
      (iei_wt61p803_puzzle_write bus .fan attr channel v).sent =
        [pwm_set_cmd channel v] := by
  intro bus type attr channel v
  exact ⟨rfl, sent_write_pwm bus channel v, sent_write_pwm bus channel v⟩

end IeiPuzzle
